import Mathlib

/-!
Verification development for a pCloud client SDK (Rust sources:
`pcloud_model.rs`, `pcloud_client.rs`, `file_ops.rs`).  The relevant data
model and operations are embedded shallowly: pure Rust functions become Lean
functions, network access is made explicit by passing the decoded server
response (or a transport outcome) as a parameter together with a count of
requests issued, and Rust panics (`unwrap` on `None`) become an explicit
`panicked` outcome.
-/

namespace pcloud_model

/-- The closed enumeration of pCloud status codes (`PCloudResult` in
`pcloud_model.rs`), one success value `Ok` plus the domain error codes. -/
inductive PCloudResult where
  | Ok
  | LogInRequired
  | NoFullPathOrNameOrFolderIdProvided
  | NoFullPathOrFolderIdProvided
  | NoFileIdOrPathProvided
  | InvalidFileDescriptor
  | DateTimeFormatNotUnderstood
  | NoFullToPathOrToNameAndToFolderIdProvided
  | InvalidFolderId
  | InvalidFileId
  | ProvidedAtLeastToPathOrToFolderIdOrToName
  | ProvideURL
  | LoginFailed
  | InvalidFileOrFolderName
  | ComponentOfTheParentDirectoryDoesNotExist
  | AccessDenied
  | DirectoryDoesNotExist
  | FolderIsNotEmpty
  | CanNotDeleteRootFolder
  | UserOverQuota
  | FileNotFound
  | InvalidPath
  | PleaseVerifyYourMailAddressToPerformThisAction
  | CannotPlaceASharedFolderIntoAnotherSharedFolder
  | YouCanOnlyShareYourOwnFilesOrFolders
  | ActiveSharesOrShareRequestsForThisFolder
  | ConnectionBroken
  | CannotRenameTheRootFolder
  | CannotMoveAFolderToASubfolderOfItself
  | TooManyLogins
  | InternalError
  | InternalUploadError
  | WriteError
deriving DecidableEq, Repr

/-- The numeric wire code of each `PCloudResult` variant (the `repr(u16)`
discriminants in `pcloud_model.rs`). -/
def PCloudResult.code : PCloudResult → Nat
  | .Ok => 0
  | .LogInRequired => 1000
  | .NoFullPathOrNameOrFolderIdProvided => 1001
  | .NoFullPathOrFolderIdProvided => 1002
  | .NoFileIdOrPathProvided => 1004
  | .InvalidFileDescriptor => 1007
  | .DateTimeFormatNotUnderstood => 1013
  | .NoFullToPathOrToNameAndToFolderIdProvided => 1016
  | .InvalidFolderId => 1017
  | .InvalidFileId => 1018
  | .ProvidedAtLeastToPathOrToFolderIdOrToName => 1037
  | .ProvideURL => 1040
  | .LoginFailed => 2000
  | .InvalidFileOrFolderName => 2001
  | .ComponentOfTheParentDirectoryDoesNotExist => 2002
  | .AccessDenied => 2003
  | .DirectoryDoesNotExist => 2005
  | .FolderIsNotEmpty => 2006
  | .CanNotDeleteRootFolder => 2007
  | .UserOverQuota => 2008
  | .FileNotFound => 2009
  | .InvalidPath => 2010
  | .PleaseVerifyYourMailAddressToPerformThisAction => 2014
  | .CannotPlaceASharedFolderIntoAnotherSharedFolder => 2023
  | .YouCanOnlyShareYourOwnFilesOrFolders => 2026
  | .ActiveSharesOrShareRequestsForThisFolder => 2028
  | .ConnectionBroken => 2041
  | .CannotRenameTheRootFolder => 2042
  | .CannotMoveAFolderToASubfolderOfItself => 2043
  | .TooManyLogins => 4000
  | .InternalError => 5000
  | .InternalUploadError => 5001
  | .WriteError => 5003

/-- The fields of the `Metadata` record used by the embedded operations
(`pcloud_model.rs`): the file/folder discriminator and the two optional
numeric ids. The remaining fields (names, dates, media attributes) are not
consulted by any embedded operation. -/
structure Metadata where
  isfolder : Bool
  fileid : Option Nat
  folderid : Option Nat
deriving DecidableEq, Repr

/-- Decoded response of the `stat` / `listfolder` calls
(`FileOrFolderStat` in `pcloud_model.rs`). -/
structure FileOrFolderStat where
  result : PCloudResult
  metadata : Option Metadata
deriving DecidableEq, Repr

/-- Decoded response of the `getapiserver` call (`ApiServers` in
`pcloud_model.rs`): a result code and the candidate host lists, first entry
being the best choice. -/
structure ApiServers where
  result : PCloudResult
  binapi : List String
  api : List String
deriving DecidableEq, Repr

/-- Decoded response of the `uploadfile` call (`UploadedFile` in
`pcloud_model.rs`). -/
structure UploadedFile where
  result : PCloudResult
  fileids : List Nat
  metadata : List Metadata
deriving DecidableEq, Repr

/-- `WithPCloudResult::assert_ok` from `pcloud_model.rs`, embedded
generically: the trait object is represented by the pair of a response type
`α` and its `get_result` accessor. `Ok` returns the response unchanged, any
other code is cloned into the error. -/
def assert_ok {α : Type} (get_result : α → PCloudResult) (x : α) :
    Except PCloudResult α :=
  match get_result x with
  | .Ok => .ok x
  | e => .error e

end pcloud_model

namespace file_ops

open pcloud_model

/-- `PCloudFile` from `file_ops.rs`: a file addressed by numeric id or by
path, optionally pinned to a revision. -/
structure PCloudFile where
  file_id : Option Nat
  path : Option String
  revision : Option Nat
deriving DecidableEq, Repr

/-- `PCloudFile::is_empty` from `file_ops.rs`. -/
def PCloudFile.is_empty (f : PCloudFile) : Bool :=
  f.file_id.isNone && f.path.isNone

/-- `impl From<&str> for PCloudFile` in `file_ops.rs`: any string becomes a
path descriptor, with no validation. -/
def PCloudFile.fromStr (value : String) : PCloudFile :=
  { file_id := none, path := some value, revision := none }

/-- `impl From<u64> for PCloudFile` in `file_ops.rs`. -/
def PCloudFile.fromU64 (value : Nat) : PCloudFile :=
  { file_id := some value, path := none, revision := none }

/-- `impl TryFrom<&Metadata> for PCloudFile` in `file_ops.rs`: a
folder-flagged record is rejected with `InvalidFileOrFolderName`. -/
def PCloudFile.tryFromMetadata (value : Metadata) :
    Except PCloudResult PCloudFile :=
  if value.isfolder then
    .error .InvalidFileOrFolderName
  else
    .ok { file_id := value.fileid, path := none, revision := none }

end file_ops

namespace pcloud_client

open pcloud_model

/-- `PCloudFolder` from `pcloud_client.rs`: a folder addressed by numeric id
or by path. -/
structure PCloudFolder where
  folder_id : Option Nat
  path : Option String
deriving DecidableEq, Repr

/-- Modelled from the spec: `folder_ops.rs` (the module defining the
`FolderDescriptor` trait used by `file_ops.rs`) is not among the given
sources; per the spec a descriptor is unresolvable when neither id nor path
is present, mirroring `PCloudFile::is_empty`. -/
def PCloudFolder.is_empty (f : PCloudFolder) : Bool :=
  f.folder_id.isNone && f.path.isNone

/-- Rust `str::starts_with("/")` as used by the folder conversions in
`pcloud_client.rs`: true exactly when the first character of the string is
a slash. -/
def starts_with_slash (s : String) : Bool :=
  match s.data with
  | [] => false
  | c :: _ => c = '/'

/-- `impl TryInto<PCloudFolder> for &str` in `pcloud_client.rs`: the root
path resolves to the fixed id `0`, other absolute paths stay path
descriptors, relative paths are rejected with `InvalidPath`. -/
def PCloudFolder.tryFromStr (s : String) : Except PCloudResult PCloudFolder :=
  if s = "/" then
    .ok { folder_id := some 0, path := none }
  else if starts_with_slash s then
    .ok { folder_id := none, path := some s }
  else
    .error .InvalidPath

/-- `impl TryInto<PCloudFolder> for String` in `pcloud_client.rs`; same
algorithm as the `&str` implementation. -/
def PCloudFolder.tryFromString (s : String) : Except PCloudResult PCloudFolder :=
  if s = "/" then
    .ok { folder_id := some 0, path := none }
  else if starts_with_slash s then
    .ok { folder_id := none, path := some s }
  else
    .error .InvalidPath

/-- `impl Into<PCloudFolder> for u64` in `pcloud_client.rs`. -/
def PCloudFolder.fromU64 (value : Nat) : PCloudFolder :=
  { folder_id := some value, path := none }

/-- `impl TryInto<PCloudFolder> for &Metadata` in `pcloud_client.rs`: a
file-flagged record is rejected with `InvalidFileOrFolderName`. -/
def PCloudFolder.tryFromMetadata (value : Metadata) :
    Except PCloudResult PCloudFolder :=
  if !value.isfolder then
    .error .InvalidFileOrFolderName
  else
    .ok { folder_id := value.folderid, path := none }

/-- `DeleteFolderRequestBuilder` from `pcloud_client.rs` (the `client` field,
a network handle, is not part of the embedding). -/
structure DeleteFolderRequestBuilder where
  path : Option String
  folder_id : Option Nat
deriving DecidableEq, Repr

/-- `DeleteFolderRequestBuilder::for_folder` from `pcloud_client.rs`, over an
already converted `PCloudFolder`: construction succeeds only when an id or a
path is present, otherwise it fails with `NoFileIdOrPathProvided` before any
request is built. -/
def DeleteFolderRequestBuilder.for_folder (f : PCloudFolder) :
    Except PCloudResult DeleteFolderRequestBuilder :=
  if f.folder_id.isSome || f.path.isSome then
    .ok { folder_id := f.folder_id, path := f.path }
  else
    .error .NoFileIdOrPathProvided

end pcloud_client

namespace file_ops

open pcloud_model
open pcloud_client

/-- `CopyFileRequestBuilder` from `file_ops.rs` (the `client` field, a
network handle, is not part of the embedding). -/
structure CopyFileRequestBuilder where
  from_path : Option String
  from_file_id : Option Nat
  to_path : Option String
  to_folder_id : Option Nat
  to_name : Option String
  overwrite : Bool
  mtime : Option Int
  ctime : Option Int
  revision_id : Option Nat
deriving DecidableEq, Repr

/-- `CopyFileRequestBuilder::copy_file` from `file_ops.rs`, over already
converted descriptors: both the source file and the target folder must be
non-empty, otherwise construction fails with `NoFileIdOrPathProvided`
before any network access. -/
def CopyFileRequestBuilder.copy_file (source : PCloudFile)
    (target : PCloudFolder) : Except PCloudResult CopyFileRequestBuilder :=
  if !source.is_empty && !target.is_empty then
    .ok { from_path := source.path, from_file_id := source.file_id,
          to_path := target.path, to_folder_id := target.folder_id,
          to_name := none, overwrite := true, mtime := none, ctime := none,
          revision_id := source.revision }
  else
    .error .NoFileIdOrPathProvided

/-- `MoveFileRequestBuilder` from `file_ops.rs`. -/
structure MoveFileRequestBuilder where
  from_path : Option String
  from_file_id : Option Nat
  to_path : Option String
  to_folder_id : Option Nat
  to_name : Option String
  revision_id : Option Nat
deriving DecidableEq, Repr

/-- `MoveFileRequestBuilder::move_file` from `file_ops.rs`: same fail-fast
validation as `copy_file`. -/
def MoveFileRequestBuilder.move_file (source : PCloudFile)
    (target : PCloudFolder) : Except PCloudResult MoveFileRequestBuilder :=
  if !source.is_empty && !target.is_empty then
    .ok { from_path := source.path, from_file_id := source.file_id,
          to_path := target.path, to_folder_id := target.folder_id,
          to_name := none, revision_id := source.revision }
  else
    .error .NoFileIdOrPathProvided

/-- A multipart file part (`reqwest::multipart::Part` built by
`UploadRequestBuilder::with_file`); only the file name given to the part is
relevant to the embedded control flow. -/
structure Part where
  file_name : String
deriving DecidableEq, Repr

/-- `UploadRequestBuilder` from `file_ops.rs`. -/
structure UploadRequestBuilder where
  path : Option String
  folder_id : Option Nat
  no_partial : Bool
  rename_if_exists : Bool
  mtime : Option Int
  ctime : Option Int
  files : List Part
deriving DecidableEq, Repr

/-- `UploadRequestBuilder::into_folder` from `file_ops.rs`: the target
folder must be non-empty, otherwise construction fails with
`NoFileIdOrPathProvided` before any network access. -/
def UploadRequestBuilder.into_folder (f : PCloudFolder) :
    Except PCloudResult UploadRequestBuilder :=
  if !f.is_empty then
    .ok { folder_id := f.folder_id, path := f.path, no_partial := true,
          rename_if_exists := false, mtime := none, ctime := none,
          files := [] }
  else
    .error .NoFileIdOrPathProvided

/-- `UploadRequestBuilder::with_file` from `file_ops.rs`: appends one
multipart part carrying the given file name. -/
def UploadRequestBuilder.with_file (b : UploadRequestBuilder)
    (file_name : String) : UploadRequestBuilder :=
  { b with files := b.files ++ [{ file_name := file_name }] }

/-- `UploadRequestBuilder::upload` from `file_ops.rs`.  The network is made
explicit: `server` is the decoded response the `/uploadfile` endpoint would
return, and the second component counts the requests actually sent.  With no
attached file parts the call short-circuits to a synthetic success and sends
nothing; otherwise exactly one request is sent and the decoded response goes
through `assert_ok`. -/
def UploadRequestBuilder.upload (b : UploadRequestBuilder)
    (server : UploadedFile) : Except PCloudResult UploadedFile × Nat :=
  if b.files.isEmpty then
    (.ok { result := .Ok, fileids := [], metadata := [] }, 0)
  else
    (assert_ok UploadedFile.result server, 1)

/-- `PublicFileLinkRequestBuilder` from `file_ops.rs`. -/
structure PublicFileLinkRequestBuilder where
  file_id : Option Nat
  path : Option String
  expire : Option String
  max_downloads : Option Nat
  max_traffic : Option Nat
  short_link : Bool
  link_password : Option String
  revision_id : Option Nat
deriving DecidableEq, Repr

/-- `PublicFileLinkRequestBuilder::for_file` from `file_ops.rs`: the file
descriptor must be non-empty, otherwise construction fails with
`NoFileIdOrPathProvided` before any network access. -/
def PublicFileLinkRequestBuilder.for_file (f : PCloudFile) :
    Except PCloudResult PublicFileLinkRequestBuilder :=
  if !f.is_empty then
    .ok { file_id := f.file_id, path := f.path, expire := none,
          max_downloads := none, max_traffic := none, short_link := false,
          link_password := none, revision_id := f.revision }
  else
    .error .NoFileIdOrPathProvided

/-- `PublicFileLinkRequestBuilder::with_revision` from `file_ops.rs`:
fluent setter, last write wins. -/
def PublicFileLinkRequestBuilder.with_revision
    (b : PublicFileLinkRequestBuilder) (value : Nat) :
    PublicFileLinkRequestBuilder :=
  { b with revision_id := some value }

/-- `FileStatRequestBuilder` from `file_ops.rs`. -/
structure FileStatRequestBuilder where
  file_id : Option Nat
  path : Option String
  revision_id : Option Nat
deriving DecidableEq, Repr

/-- `FileStatRequestBuilder::for_file` from `file_ops.rs`: the file
descriptor must be non-empty, otherwise construction fails with
`NoFileIdOrPathProvided` before any network access. -/
def FileStatRequestBuilder.for_file (f : PCloudFile) :
    Except PCloudResult FileStatRequestBuilder :=
  if !f.is_empty then
    .ok { file_id := f.file_id, path := f.path, revision_id := f.revision }
  else
    .error .NoFileIdOrPathProvided

/-- Outcome of running a fallible operation that may also hit a Rust panic
(`unwrap` on `None`). -/
inductive RunOutcome (α : Type) where
  | ok (a : α)
  | err (e : PCloudResult)
  | panicked
deriving DecidableEq, Repr

/-- `PCloudClient::get_file_metadata` from `file_ops.rs`:
`FileStatRequestBuilder::for_file(..)?.get()`. The network is explicit:
`server` is the decoded response the `/stat` endpoint would return, the
second component counts the requests sent.  An empty descriptor fails in
`for_file` with zero requests; otherwise `get` sends exactly one request and
runs the decoded response through `assert_ok`. -/
def get_file_metadata (server : FileOrFolderStat) (file : PCloudFile) :
    Except PCloudResult FileOrFolderStat × Nat :=
  if file.is_empty then
    (.error .NoFileIdOrPathProvided, 0)
  else
    (assert_ok FileOrFolderStat.result server, 1)

/-- `PCloudClient::get_file_id` from `file_ops.rs`.  If the descriptor
carries a numeric id it is returned as-is with the optional revision and no
request is sent.  Otherwise the path is resolved through
`get_file_metadata`; the source calls `.metadata.unwrap()` on the decoded
response, which panics when the metadata field is absent, and then rejects
folder-flagged metadata or metadata without a file id with
`NoFileIdOrPathProvided`. -/
def get_file_id (server : FileOrFolderStat) (file : PCloudFile) :
    RunOutcome (Nat × Option Nat) × Nat :=
  let rev := file.revision
  match file.file_id with
  | some file_id => (.ok (file_id, rev), 0)
  | none =>
    match get_file_metadata server file with
    | (.error e, n) => (.err e, n)
    | (.ok stat, n) =>
      match stat.metadata with
      | none => (.panicked, n)
      | some metadata =>
        if metadata.isfolder then
          (.err .NoFileIdOrPathProvided, n)
        else
          match metadata.fileid with
          | some file_id => (.ok (file_id, rev), n)
          | none => (.err .NoFileIdOrPathProvided, n)

end file_ops

namespace pcloud_client

open pcloud_model

/-- Result of one network send: either a decoded value or a transport
failure (connection error, decode error), which `?` in the source turns
into an early return. -/
inductive Transport (α : Type) where
  | ok (a : α)
  | failed
deriving DecidableEq, Repr

/-- Outcome of `PCloudClient::get_best_api_server`: a selected host, a
propagated transport error (which fails client construction), or a panic. -/
inductive HostSelection where
  | ok (host : String)
  | transportFailure
  | panicked
deriving DecidableEq, Repr

/-- `PCloudClient::get_best_api_server` from `pcloud_client.rs`.  The
network is explicit: `response` is the outcome of the `/getapiserver`
request.  A transport failure propagates through `?`.  On a decoded
response with code `Ok` the source does `api.get(0).unwrap()` — a panic when
the candidate list is empty — and pins `https://` plus the first candidate;
on any other code it falls back to the supplied default host. -/
def get_best_api_server (response : Transport ApiServers) (host : String) :
    HostSelection :=
  match response with
  | .failed => .transportFailure
  | .ok api_servers =>
    match api_servers.result with
    | .Ok =>
      match api_servers.api.head? with
      | none => .panicked
      | some best_host_url => .ok ("https://" ++ best_host_url)
    | _ => .ok host

/-- State of one login session shared through
`Arc<Option<PCloudClientSession>>` by the clones of a `PCloudClient`
(`pcloud_client.rs`): the number of live client handles (the strong count of
the `Arc`), whether the `Arc` holds a `Some(PCloudClientSession)` (login
mode) or `None` (stateless OAuth mode), and how many `/logout` revoke calls
have been issued. -/
structure SessionState where
  handles : Nat
  active : Bool
  revokes : Nat
deriving DecidableEq, Repr

/-- The drop of one `PCloudClient` clone, modelling Rust `Arc` semantics:
each drop decrements the strong count, and only the drop that releases the
last reference drops the inner `Option<PCloudClientSession>`, whose `Drop`
implementation (`pcloud_client.rs`) issues exactly one blocking `/logout`
call when a session is present.  In stateless mode the inner value is
`None` and nothing is revoked. -/
def SessionState.release (s : SessionState) : SessionState :=
  match s.handles with
  | 0 => s
  | 1 => { handles := 0, active := false,
           revokes := s.revokes + (if s.active then 1 else 0) }
  | n + 2 => { handles := n + 1, active := s.active, revokes := s.revokes }

/-- Draining all handles of a session: `n + 1` releases starting from
`n + 1` live handles end with no handles, no session, and exactly one
revoke for an active session (none for a stateless one). -/
theorem SessionState.release_iterate_drains (n : Nat) (a : Bool) (r : Nat) :
    SessionState.release^[n + 1] ⟨n + 1, a, r⟩ =
      ⟨0, false, r + (if a then 1 else 0)⟩ := by
  induction n with
  | zero => simp [SessionState.release]
  | succ k ih =>
    rw [Function.iterate_succ_apply]
    simpa [SessionState.release] using ih

end pcloud_client

open pcloud_model pcloud_client file_ops

/-- C1: for every request-builder constructor embedded here (`copy_file`,
`move_file`, `into_folder`, `for_file`, `for_folder`), a source descriptor
with neither id nor path — and, for the dual-target copy/move operations,
likewise an empty target descriptor — makes construction fail with
`NoFileIdOrPathProvided` (`NoIdentifierProvided`), as a pure computation
before any network access; in particular a copy-file builder built from an
empty source and a valid target fails this way. -/
theorem C1_builder_construction_fail_fast
    (source : PCloudFile) (target : PCloudFolder) :
    (source.is_empty = true →
      CopyFileRequestBuilder.copy_file source target =
        .error .NoFileIdOrPathProvided) ∧
    (target.is_empty = true →
      CopyFileRequestBuilder.copy_file source target =
        .error .NoFileIdOrPathProvided) ∧
    (source.is_empty = true →
      MoveFileRequestBuilder.move_file source target =
        .error .NoFileIdOrPathProvided) ∧
    (target.is_empty = true →
      MoveFileRequestBuilder.move_file source target =
        .error .NoFileIdOrPathProvided) ∧
    (target.is_empty = true →
      UploadRequestBuilder.into_folder target =
        .error .NoFileIdOrPathProvided) ∧
    (source.is_empty = true →
      PublicFileLinkRequestBuilder.for_file source =
        .error .NoFileIdOrPathProvided) ∧
    (source.is_empty = true →
      FileStatRequestBuilder.for_file source =
        .error .NoFileIdOrPathProvided) ∧
    (target.folder_id = none → target.path = none →
      DeleteFolderRequestBuilder.for_folder target =
        .error .NoFileIdOrPathProvided) ∧
    CopyFileRequestBuilder.copy_file
        { file_id := none, path := none, revision := none }
        { folder_id := some 0, path := none } =
      .error .NoFileIdOrPathProvided := by
  refine ⟨?_, ?_, ?_, ?_, ?_, ?_, ?_, ?_, rfl⟩
  · intro h
    simp [CopyFileRequestBuilder.copy_file, h]
  · intro h
    simp [CopyFileRequestBuilder.copy_file, h]
  · intro h
    simp [MoveFileRequestBuilder.move_file, h]
  · intro h
    simp [MoveFileRequestBuilder.move_file, h]
  · intro h
    simp [UploadRequestBuilder.into_folder, h]
  · intro h
    simp [PublicFileLinkRequestBuilder.for_file, h]
  · intro h
    simp [FileStatRequestBuilder.for_file, h]
  · intro h1 h2
    simp [DeleteFolderRequestBuilder.for_folder, h1, h2]

/-- Closed instance of C1: an all-empty source (with a valid or an empty
target) is rejected by the constructors before any request exists. -/
theorem C1_builder_construction_fail_fast_witness :
    CopyFileRequestBuilder.copy_file
        { file_id := none, path := none, revision := none }
        { folder_id := none, path := none } =
      .error .NoFileIdOrPathProvided ∧
    UploadRequestBuilder.into_folder { folder_id := none, path := none } =
      .error .NoFileIdOrPathProvided ∧
    DeleteFolderRequestBuilder.for_folder { folder_id := none, path := none } =
      .error .NoFileIdOrPathProvided :=
  ⟨(C1_builder_construction_fail_fast
      { file_id := none, path := none, revision := none }
      { folder_id := none, path := none }).1 (by decide),
   (C1_builder_construction_fail_fast
      { file_id := none, path := none, revision := none }
      { folder_id := none, path := none }).2.2.2.2.1 (by decide),
   (C1_builder_construction_fail_fast
      { file_id := none, path := none, revision := none }
      { folder_id := none, path := none }).2.2.2.2.2.2.2.1 rfl rfl⟩

/-- C2: for any response type carrying a `PCloudResult`, `assert_ok` is the
identity (wrapped in `ok`) exactly when the embedded code is `Ok`, and for
every other code it returns an error carrying exactly the original code. -/
theorem C2_assert_ok_normalizes_result {α : Type}
    (get_result : α → PCloudResult) (x : α) :
    (assert_ok get_result x = .ok x ↔ get_result x = .Ok) ∧
    (get_result x ≠ .Ok →
      assert_ok get_result x = .error (get_result x)) := by
  cases hg : get_result x <;> simp [assert_ok, hg]

/-- Closed instance of C2 on a decoded `stat` response: a non-success code
becomes an error carrying that code, the success code is passed through. -/
theorem C2_assert_ok_normalizes_result_witness :
    assert_ok FileOrFolderStat.result
        { result := .AccessDenied, metadata := none } =
      .error .AccessDenied ∧
    assert_ok FileOrFolderStat.result { result := .Ok, metadata := none } =
      .ok { result := .Ok, metadata := none } :=
  ⟨(C2_assert_ok_normalizes_result FileOrFolderStat.result
      { result := .AccessDenied, metadata := none }).2 (by decide),
   (C2_assert_ok_normalizes_result FileOrFolderStat.result
      { result := .Ok, metadata := none }).1.mpr rfl⟩

/-- C3: converting the folder path "/" yields the fixed folder id 0 and no
path, for both the `&str` and the `String` conversion; both conversions are
pure functions of their argument (the source performs no I/O here). -/
theorem C3_root_path_resolves_to_id_zero :
    PCloudFolder.tryFromStr ("/") =
      .ok { folder_id := some 0, path := none } ∧
    PCloudFolder.tryFromString ("/") =
      .ok { folder_id := some 0, path := none } := by
  constructor <;> rfl


/-- C4: for a session acquired by login and shared by reference across `N`
client handles, releasing all `N` handles issues exactly one revoke
(`/logout`) call — the one performed when the last reference is dropped —
and in stateless mode (the shared `Arc` holds `None`) no revoke call is
ever issued.  All handles of one session are interchangeable in the
reference-count model, so the result does not depend on which handle is
released when. -/
theorem C4_session_revoked_exactly_once (N : Nat) (hN : 1 ≤ N) :
    SessionState.release^[N] { handles := N, active := true, revokes := 0 } =
      { handles := 0, active := false, revokes := 1 } ∧
    SessionState.release^[N] { handles := N, active := false, revokes := 0 } =
      { handles := 0, active := false, revokes := 0 } := by
  obtain ⟨M, rfl⟩ : ∃ M, N = M + 1 :=
    ⟨N - 1, (Nat.succ_pred_eq_of_pos hN).symm⟩
  constructor
  · simpa using SessionState.release_iterate_drains M true 0
  · simpa using SessionState.release_iterate_drains M false 0

/-- Closed instance of C4 with three clones: three releases of an active
session revoke once; three releases of a stateless client revoke nothing. -/
theorem C4_session_revoked_exactly_once_witness :
    SessionState.release^[3] { handles := 3, active := true, revokes := 0 } =
      { handles := 0, active := false, revokes := 1 } ∧
    SessionState.release^[3] { handles := 3, active := false, revokes := 0 } =
      { handles := 0, active := false, revokes := 0 } :=
  C4_session_revoked_exactly_once 3 (by decide)

/-- C5 counterexample: resolving a path-only file descriptor whose `stat`
response is a folder does issue one request, but the code fails with the
generic `NoFileIdOrPathProvided` (code 1004); there is no `InvalidTarget`
variant in `PCloudResult` at all, and the error is not even the
kind-mismatch code `InvalidFileOrFolderName` that the descriptor
conversions use. -/
theorem C5_kind_mismatch_error_counterexample :
    get_file_id
        { result := .Ok,
          metadata := some { isfolder := true, fileid := none,
                             folderid := some 9 } }
        { file_id := none, path := some ("/Photos"), revision := none } =
      (.err .NoFileIdOrPathProvided, 1) ∧
    PCloudResult.NoFileIdOrPathProvided ≠
      PCloudResult.InvalidFileOrFolderName := by
  constructor
  · rfl
  · decide

/-- C5 (amended): an operation that needs a numeric file id resolves a
path-only descriptor by issuing exactly one metadata-fetch (`stat`)
request and extracting the id from the response, and it fails with
`NoFileIdOrPathProvided` — not `InvalidTarget`, which does not exist —
when the fetched object is a folder. -/
theorem C5_path_resolution_stat_and_kind_check
    (server : FileOrFolderStat) (file : PCloudFile) (p : String)
    (hid : file.file_id = none) (hp : file.path = some p)
    (hres : server.result = .Ok) (md : Metadata)
    (hmd : server.metadata = some md) :
    (get_file_id server file).2 = 1 ∧
    (md.isfolder = true →
      (get_file_id server file).1 = .err .NoFileIdOrPathProvided) ∧
    (md.isfolder = false → ∀ fid, md.fileid = some fid →
      (get_file_id server file).1 = .ok (fid, file.revision)) := by
  have hsplit : get_file_metadata server file = (.ok server, 1) := by
    simp [get_file_metadata, PCloudFile.is_empty, hid, hp, assert_ok, hres]
  refine ⟨?_, ?_, ?_⟩
  · simp [get_file_id, hid, hsplit, hmd]
    cases hmd2 : md.isfolder <;> cases hfid : md.fileid <;> simp
  · intro hfolder
    simp [get_file_id, hid, hsplit, hmd, hfolder]
  · intro hfolder fid hfid
    simp [get_file_id, hid, hsplit, hmd, hfolder, hfid]

/-- Closed instance of C5 (amended): a path-only descriptor with revision 7
whose `stat` response is a file with id 42 resolves to (42, 7) with exactly
one request sent. -/
theorem C5_path_resolution_stat_and_kind_check_witness :
    (get_file_id
        { result := .Ok,
          metadata := some { isfolder := false, fileid := some 42,
                             folderid := none } }
        { file_id := none, path := some ("/a.txt"), revision := some 7 }).2 =
      1 ∧
    (get_file_id
        { result := .Ok,
          metadata := some { isfolder := false, fileid := some 42,
                             folderid := none } }
        { file_id := none, path := some ("/a.txt"), revision := some 7 }).1 =
      .ok (42, some 7) :=
  ⟨(C5_path_resolution_stat_and_kind_check
      { result := .Ok,
        metadata := some { isfolder := false, fileid := some 42,
                           folderid := none } }
      { file_id := none, path := some ("/a.txt"), revision := some 7 }
      ("/a.txt") rfl rfl rfl
      { isfolder := false, fileid := some 42, folderid := none } rfl).1,
   (C5_path_resolution_stat_and_kind_check
      { result := .Ok,
        metadata := some { isfolder := false, fileid := some 42,
                           folderid := none } }
      { file_id := none, path := some ("/a.txt"), revision := some 7 }
      ("/a.txt") rfl rfl rfl
      { isfolder := false, fileid := some 42, folderid := none } rfl).2.2
     rfl 42 rfl⟩

/-- C6 counterexample: on a transport failure of the `/getapiserver`
request, `get_best_api_server` does not fall back to the supplied default
host — the `?` operator propagates the error, so client construction
fails. -/
theorem C6_transport_failure_counterexample :
    get_best_api_server Transport.failed ("https://api.pcloud.com") =
      .transportFailure ∧
    get_best_api_server Transport.failed ("https://api.pcloud.com") ≠
      .ok ("https://api.pcloud.com") := by
  constructor
  · rfl
  · intro h
    cases h

/-- C6 (amended): endpoint selection pins to `https://` plus the first
candidate of a successful discovery response, falls back to the supplied
default host on any decoded non-success code, but propagates a transport
failure, failing client construction. -/
theorem C6_endpoint_selection_behavior (s : ApiServers) (host : String) :
    (s.result = .Ok → ∀ h rest, s.api = h :: rest →
      get_best_api_server (.ok s) host = .ok ("https://" ++ h)) ∧
    (s.result ≠ .Ok → get_best_api_server (.ok s) host = .ok host) ∧
    get_best_api_server .failed host = .transportFailure := by
  refine ⟨?_, ?_, rfl⟩
  · intro hres h rest hapi
    simp [get_best_api_server, hres, hapi]
  · intro hres
    cases hs : s.result
    case Ok => exact absurd hs hres
    all_goals simp [get_best_api_server, hs]

/-- Closed instance of C6 (amended): a success response pins the first
candidate; an internal-error response falls back to the default host. -/
theorem C6_endpoint_selection_behavior_witness :
    get_best_api_server
        (.ok { result := .Ok, binapi := [],
               api := ["eapi.pcloud.com", "api.pcloud.com"] })
        ("https://api.pcloud.com") =
      .ok ("https://" ++ "eapi.pcloud.com") ∧
    get_best_api_server
        (.ok { result := .InternalError, binapi := [], api := [] })
        ("https://api.pcloud.com") =
      .ok ("https://api.pcloud.com") :=
  ⟨(C6_endpoint_selection_behavior
      { result := .Ok, binapi := [],
        api := ["eapi.pcloud.com", "api.pcloud.com"] }
      ("https://api.pcloud.com")).1 rfl ("eapi.pcloud.com")
      ["api.pcloud.com"] rfl,
   (C6_endpoint_selection_behavior
      { result := .InternalError, binapi := [], api := [] }
      ("https://api.pcloud.com")).2.1 (by decide)⟩

/-- C7: an upload builder with zero attached file parts short-circuits to a
synthetic success payload (code `Ok`, empty fileids, empty metadata) with
zero requests sent, and this is the only case in which `upload` sends no
request: with any attached part exactly one request is sent. -/
theorem C7_upload_empty_short_circuit (b : UploadRequestBuilder)
    (server : UploadedFile) :
    (b.files = [] →
      b.upload server =
        (.ok { result := .Ok, fileids := [], metadata := [] }, 0)) ∧
    (b.files ≠ [] → (b.upload server).2 = 1) := by
  constructor
  · intro h
    simp [UploadRequestBuilder.upload, h]
  · intro h
    simp [UploadRequestBuilder.upload, h]

/-- Closed instance of C7: a fresh builder for the root folder uploads
nothing without a request, and after `with_file` one request is sent. -/
theorem C7_upload_empty_short_circuit_witness :
    UploadRequestBuilder.upload
        { path := none, folder_id := some 0, no_partial := true,
          rename_if_exists := false, mtime := none, ctime := none,
          files := [] }
        { result := .Ok, fileids := [], metadata := [] } =
      (.ok { result := .Ok, fileids := [], metadata := [] }, 0) ∧
    (UploadRequestBuilder.upload
        (UploadRequestBuilder.with_file
          { path := none, folder_id := some 0, no_partial := true,
            rename_if_exists := false, mtime := none, ctime := none,
            files := [] }
          ("a.txt"))
        { result := .Ok, fileids := [], metadata := [] }).2 = 1 :=
  ⟨(C7_upload_empty_short_circuit
      { path := none, folder_id := some 0, no_partial := true,
        rename_if_exists := false, mtime := none, ctime := none,
        files := [] }
      { result := .Ok, fileids := [], metadata := [] }).1 rfl,
   (C7_upload_empty_short_circuit
      (UploadRequestBuilder.with_file
        { path := none, folder_id := some 0, no_partial := true,
          rename_if_exists := false, mtime := none, ctime := none,
          files := [] }
        ("a.txt"))
      { result := .Ok, fileids := [], metadata := [] }).2 (by simp [UploadRequestBuilder.with_file])⟩

/-- C8: for every file descriptor whose numeric id is set, `get_file_id`
returns that id together with the optional revision and sends zero
requests, whatever the server would answer and even if a path is also set —
the id takes precedence and the path is ignored. -/
theorem C8_id_resolution_without_network (server : FileOrFolderStat)
    (file : PCloudFile) (fid : Nat) (h : file.file_id = some fid) :
    get_file_id server file = (.ok (fid, file.revision), 0) := by
  simp [get_file_id, h]

/-- Closed instance of C8: id 5 with a path also set resolves to (5, 2)
with zero requests, ignoring the path. -/
theorem C8_id_resolution_without_network_witness :
    get_file_id { result := .AccessDenied, metadata := none }
        { file_id := some 5, path := some ("/ignored"), revision := some 2 } =
      (.ok (5, some 2), 0) :=
  C8_id_resolution_without_network
    { result := .AccessDenied, metadata := none }
    { file_id := some 5, path := some ("/ignored"), revision := some 2 }
    5 rfl

/-- C9: a discovery response with the success code but an empty candidate
list makes `get_best_api_server` panic (the source unwraps `api.get(0)`),
while under the precondition that a success response carries at least one
candidate the panic branch is unreachable: the selection returns the first
candidate. -/
theorem C9_empty_host_list_panic (s : ApiServers) (host : String) :
    get_best_api_server
        (.ok { result := .Ok, binapi := [], api := [] }) host = .panicked ∧
    (s.result = .Ok → s.api ≠ [] →
      ∃ h rest, s.api = h :: rest ∧
        get_best_api_server (.ok s) host = .ok ("https://" ++ h)) := by
  constructor
  · rfl
  · intro hres hapi
    cases hl : s.api with
    | nil => exact absurd hl hapi
    | cons h rest =>
      exact ⟨h, rest, rfl, by simp [get_best_api_server, hres, hl]⟩

/-- Closed instance of C9: the concrete empty-list success response panics,
and a one-candidate success response selects that candidate. -/
theorem C9_empty_host_list_panic_witness :
    get_best_api_server
        (.ok { result := .Ok, binapi := [], api := [] })
        ("https://api.pcloud.com") = .panicked ∧
    (∃ h rest,
        (["eapi.pcloud.com"] : List String) = h :: rest ∧
        get_best_api_server
            (.ok { result := .Ok, binapi := [], api := ["eapi.pcloud.com"] })
            ("https://api.pcloud.com") = .ok ("https://" ++ h)) :=
  ⟨(C9_empty_host_list_panic
      { result := .Ok, binapi := [], api := [] }
      ("https://api.pcloud.com")).1,
   (C9_empty_host_list_panic
      { result := .Ok, binapi := [], api := ["eapi.pcloud.com"] }
      ("https://api.pcloud.com")).2 rfl (by decide)⟩

/-- C10: a string converts into a folder descriptor exactly when it begins
with a slash (the root "/" included); every other string is rejected with
`InvalidPath` at conversion time, before any builder exists and before any
network access, for both the `&str` and the `String` conversion — while the
same string always converts into a file descriptor, unvalidated, as a pure
path. -/
theorem C10_folder_path_validation (s : String) :
    ((∃ f, PCloudFolder.tryFromStr s = .ok f) ↔
      starts_with_slash s = true) ∧
    (starts_with_slash s = false →
      PCloudFolder.tryFromStr s = .error .InvalidPath) ∧
    ((∃ f, PCloudFolder.tryFromString s = .ok f) ↔
      starts_with_slash s = true) ∧
    (starts_with_slash s = false →
      PCloudFolder.tryFromString s = .error .InvalidPath) ∧
    PCloudFile.fromStr s =
      { file_id := none, path := some s, revision := none } := by
  have hroot : starts_with_slash ("/") = true := by decide
  have hne : starts_with_slash s = false → s ≠ "/" := by
    intro hf hs
    rw [hs, hroot] at hf
    cases hf
  refine ⟨?_, ?_, ?_, ?_, rfl⟩
  · constructor
    · rintro ⟨f, hf⟩
      by_contra hns
      have hfalse : starts_with_slash s = false := by
        cases hsw : starts_with_slash s with
        | true => exact absurd hsw hns
        | false => rfl
      rw [PCloudFolder.tryFromStr, if_neg (hne hfalse)] at hf
      rw [if_neg (by simp [hfalse])] at hf
      cases hf
    · intro hsw
      by_cases h1 : s = "/"
      · exact ⟨_, by rw [PCloudFolder.tryFromStr, if_pos h1]⟩
      · exact ⟨_, by rw [PCloudFolder.tryFromStr, if_neg h1, if_pos hsw]⟩
  · intro hf
    rw [PCloudFolder.tryFromStr, if_neg (hne hf), if_neg (by simp [hf])]
  · constructor
    · rintro ⟨f, hf⟩
      by_contra hns
      have hfalse : starts_with_slash s = false := by
        cases hsw : starts_with_slash s with
        | true => exact absurd hsw hns
        | false => rfl
      rw [PCloudFolder.tryFromString, if_neg (hne hfalse)] at hf
      rw [if_neg (by simp [hfalse])] at hf
      cases hf
    · intro hsw
      by_cases h1 : s = "/"
      · exact ⟨_, by rw [PCloudFolder.tryFromString, if_pos h1]⟩
      · exact ⟨_, by rw [PCloudFolder.tryFromString, if_neg h1, if_pos hsw]⟩
  · intro hf
    rw [PCloudFolder.tryFromString, if_neg (hne hf), if_neg (by simp [hf])]

/-- Closed instance of C10: a relative path is rejected with `InvalidPath`,
an absolute path converts to a folder descriptor, and the same relative
string converts to a file descriptor without validation. -/
theorem C10_folder_path_validation_witness :
    PCloudFolder.tryFromStr ("Photos") = .error .InvalidPath ∧
    (∃ f, PCloudFolder.tryFromStr ("/Photos") = .ok f) ∧
    PCloudFile.fromStr ("Photos") =
      { file_id := none, path := some ("Photos"), revision := none } :=
  ⟨(C10_folder_path_validation ("Photos")).2.1 (by decide),
   (C10_folder_path_validation ("/Photos")).1.mpr (by decide),
   (C10_folder_path_validation ("Photos")).2.2.2.2⟩
